import Mathlib

/-!
Shallow embedding of the LIMS orchestration core
(`llm_interaction_manager`): the `Conversation` turn sequence
(`core/conversation.py`), the `InteractionManager` session orchestrator
(`core/interaction_manager.py`), the handler-resolution logic of
`api/interaction_manager_factory.py`, and the `Settings` data model
(`utils/settings.py`).

Python dictionaries are modelled as ordered association lists; Python
exceptions become an explicit `PyError` sum; external handlers (LLM,
record store, vector store) become a `World` of response functions plus
connection flags, and every handler call is recorded in a `Trace`.
-/

/-- A scalar Python value as far as the orchestration core inspects
values: `None`, strings, integers, booleans. -/
inductive PyLeaf where
  | lNone : PyLeaf
  | lStr : String → PyLeaf
  | lInt : Int → PyLeaf
  | lBool : Bool → PyLeaf
deriving DecidableEq, Repr

/-- A Python value one container level deep: a scalar, a list of
scalars, or an ordered string-keyed mapping of scalars.  This is the
depth the orchestration core actually manipulates (turn records hold a
metadata mapping and a RAG string list alongside scalar fields). -/
inductive PyVal where
  | leaf : PyLeaf → PyVal
  | list : List PyLeaf → PyVal
  | dict : List (String × PyLeaf) → PyVal
deriving DecidableEq, Repr

/-- An ordered Python dict with scalar values (LLM response mappings,
metadata mappings). -/
abbrev LeafDict := List (String × PyLeaf)

/-- An ordered Python dict with one-level values (turn records). -/
abbrev Dict := List (String × PyVal)

/-- `d[k]` lookup: first binding of `k` (insertion order). -/
def alGet {α : Type} (d : List (String × α)) (k : String) : Option α :=
  (d.find? (fun kv => kv.1 == k)).map (fun kv => kv.2)

/-- `k in d` membership test. -/
def alHas {α : Type} (d : List (String × α)) (k : String) : Bool :=
  d.any (fun kv => kv.1 == k)

/-- `del d[k]` once the key is known to be present. -/
def alDel {α : Type} (d : List (String × α)) (k : String) : List (String × α) :=
  d.filter (fun kv => kv.1 != k)

/-- String projection of `d[k]`, used only where the source guarantees
a string is present. -/
def alGetStr (d : Dict) (k : String) : String :=
  match alGet d k with
  | some (.leaf (.lStr s)) => s
  | _ => ""

example : alGet [("a", PyLeaf.lStr "x"), ("b", PyLeaf.lInt 2)] "b" = some (PyLeaf.lInt 2) := by
  decide
example : alHas [("a", PyLeaf.lStr "x")] "c" = false := by decide

/-- The Python exceptions the orchestration core raises, by class and
message.  The spec taxonomy maps onto these: `PreconditionError` is a
`RuntimeError`, `ValidationError` is a `ValueError`, `NotFoundError` is
a `KeyError`/`ValueError` depending on the site. -/
inductive PyError where
  | keyError : String → PyError
  | valueError : String → PyError
  | runtimeError : String → PyError
  | attributeError : String → PyError
  | indexError : String → PyError
deriving DecidableEq, Repr

/-- `RAGMode` from `utils/settings.py`. -/
inductive RAGMode where
  | NONE : RAGMode
  | PERSISTENT : RAGMode
  | VOLATILE : RAGMode
  | DYNAMIC : RAGMode
deriving DecidableEq, Repr

/-- The runtime shape of a RAG payload (`on_the_fly_data` /
`default_rag_data`): a string-valued mapping, a list of strings, or
anything else (`None`, a scalar, ...). -/
inductive RagData where
  | rdict : List (String × String) → RagData
  | rlist : List String → RagData
  | rother : RagData
deriving DecidableEq, Repr

/-- `_normalize_rag_data` from `Conversation.send_prompt`: a dict
becomes the ordered list of its values, a list passes through, anything
else becomes the empty list. -/
def normalizeRagData : RagData → List String
  | .rdict kvs => kvs.map (fun kv => kv.2)
  | .rlist l => l
  | .rother => []

/-- The `Settings` dataclass from `utils/settings.py`. -/
structure Settings where
  handlers : List (String × LeafDict)
  default_handlers : List (String × String)
  use_rag_data : RAGMode
  on_the_fly_data : RagData
  default_rag_data : RagData
  default_system_prompt : String
  wait_for_manual_data : Bool
  default_export_path : String
  send_conversation_history : Bool
deriving DecidableEq, Repr

/-- Default-constructed `Settings` (every field at its dataclass
default). -/
def Settings.default : Settings where
  handlers := []
  default_handlers := []
  use_rag_data := .NONE
  on_the_fly_data := .rdict []
  default_rag_data := .rdict []
  default_system_prompt := "-1"
  wait_for_manual_data := false
  default_export_path := "-1"
  send_conversation_history := false

/-- The external collaborators as the core sees them: connection flags
(`is_connected`) and pure response behaviours for the calls the claims
observe.  `llmRespond` models `llm_handler.send_prompt` (with and
without a context argument, distinguished by the `Option`);
`nearestSearch` models `vector_handler.nearest_search`. -/
structure World where
  llmConnected : Bool
  persistentConnected : Bool
  vectorConnected : Bool
  llmRespond : String → Option (List String) → LeafDict
  nearestSearch : String → Nat → String → List String

/-- Observable handler calls made during one operation. -/
structure Trace where
  llmCalls : List (String × Option (List String))
  recordSaves : List String
  vectorSaves : List String
deriving DecidableEq, Repr

/-- The trace of an operation that touched no handler. -/
def Trace.empty : Trace := ⟨[], [], []⟩

/-- The mutable state of a `Conversation` object.  `uuid` generation is
modelled by the `nextId` counter: the source draws a fresh uuid for
each turn, here turn `n` gets identifier `"msg_" ++ toString n`. -/
structure ConvState where
  conversation_id : String
  conversation_metadata : LeafDict
  conversation_history : List Dict
  nextId : Nat
deriving DecidableEq, Repr

/-- `Conversation.__init__`: empty history, metadata as supplied. -/
def ConvState.fresh (metadata : LeafDict) : ConvState where
  conversation_id := "conv_0"
  conversation_metadata := metadata
  conversation_history := []
  nextId := 0

/-- The `rag_list` assembled at the top of `Conversation.send_prompt`:
first the last ten prior turns as prompt/response line pairs when
`send_conversation_history` is set, then the mode-selected RAG data. -/
def buildRagList (w : World) (s : Settings) (c : ConvState) (prompt : String) : List String :=
  (if s.send_conversation_history then
    ((c.conversation_history.drop (c.conversation_history.length - 10)).map
      (fun msg => ["PREVIOUS PROMPT: " ++ alGetStr msg "prompt",
                   "PREVIOUS RESPONSE: " ++ alGetStr msg "content"])).flatten
   else [])
  ++ (match s.use_rag_data with
      | .VOLATILE => normalizeRagData s.on_the_fly_data
      | .PERSISTENT => normalizeRagData s.default_rag_data
      | .DYNAMIC => w.nearestSearch prompt 10 "lims_embeddings"
      | .NONE => [])

/-- The context argument handed to the LLM handler: the source calls
`send_prompt(prompt, rag_list)` when `rag_list` is truthy and
`send_prompt(prompt)` otherwise, modelled as an `Option`. -/
def ctxOpt (w : World) (s : Settings) (c : ConvState) (prompt : String) :
    Option (List String) :=
  if (buildRagList w s c prompt).isEmpty then none else some (buildRagList w s c prompt)

/-- The `response_obj` turn record built by `Conversation.send_prompt`:
message id, prompt, response content, comment, a metadata mapping equal
to the response minus the literal keys `"content"` and `"prompt"`, and
a `"RAG-Data"` snapshot for the VOLATILE/PERSISTENT modes. -/
def mkRespObj (s : Settings) (mid prompt comment : String) (resp : LeafDict) : Dict :=
  let md := resp.filter (fun kv => kv.1 != "content" && kv.1 != "prompt")
  let base : Dict :=
    [("message_id", .leaf (.lStr mid)),
     ("prompt", .leaf (.lStr prompt)),
     ("content", .leaf ((alGet resp "response").getD .lNone)),
     ("comment", .leaf (.lStr comment)),
     ("metadata", .dict md)]
  match s.use_rag_data with
  | .VOLATILE => base ++ [("RAG-Data", .list ((normalizeRagData s.on_the_fly_data).map .lStr))]
  | .PERSISTENT => base ++ [("RAG-Data", .list ((normalizeRagData s.default_rag_data).map .lStr))]
  | _ => base

/-- `Conversation.send_prompt`: assemble the context, call the LLM
(always exactly once), require a `"response"` key, read the manual
comment when enabled, build and append the turn record, and commit it
to both stores.  `manual` is the reviewer input that `input()` would
return (the source strips it). -/
def sendPromptConv (w : World) (s : Settings) (manual : String) (c : ConvState)
    (prompt : String) : Except PyError (Dict × ConvState) × Trace :=
  let ctx := ctxOpt w s c prompt
  let resp := w.llmRespond prompt ctx
  if alHas resp "response" then
    let comment := if s.wait_for_manual_data then manual.trim else ""
    let mid := "msg_" ++ toString c.nextId
    let obj := mkRespObj s mid prompt comment resp
    (.ok (obj, { c with conversation_history := c.conversation_history ++ [obj],
                        nextId := c.nextId + 1 }),
     { llmCalls := [(prompt, ctx)], recordSaves := [mid], vectorSaves := [mid] })
  else
    (.error (.valueError "No response found in response from LLM"),
     { llmCalls := [(prompt, ctx)], recordSaves := [], vectorSaves := [] })

/-- `Conversation.get_last_response`: empty string on empty history,
otherwise the `"content"` field of the last turn. -/
def get_last_response (c : ConvState) : String :=
  match c.conversation_history.getLast? with
  | none => ""
  | some m => alGetStr m "content"

/-- The history scan of `Conversation.get_metadata`: for each item the
source evaluates `item["id"]` (a `KeyError` when the item has no
`"id"` key) and compares it with the requested id; on a match it
returns `item["metadata"]`. -/
def getMetaScan (id : PyVal) : List Dict → Except PyError PyVal
  | [] => .error (.valueError "No item found with id")
  | item :: rest =>
    match alGet item "id" with
    | none => .error (.keyError "id")
    | some v =>
      if v = id then
        match alGet item "metadata" with
        | some md => .ok md
        | none => .error (.keyError "metadata")
      else getMetaScan id rest

/-- `Conversation.get_metadata`: conversation metadata, or the scan by
message id over the history. -/
def get_metadata (c : ConvState) (conversation : Bool) (id : PyVal) :
    Except PyError PyVal :=
  if conversation then .ok (.dict c.conversation_metadata)
  else getMetaScan id c.conversation_history

/-- The protected keys of `Conversation.remove_metadata`. -/
def protectedKeys : List String := ["prompt", "content", "data", "id"]

/-- The history scan of `Conversation.remove_metadata`: the source
matches `item.get("id") == id` (a missing key yields `None`, never a
`KeyError`), then checks `key in item["metadata"]` but deletes with
`del item[key]` — from the item itself, a `KeyError` when the item has
no top-level binding for `key`.  Returns the updated history and the
raised error, if any. -/
def removeMetaScan (key : String) (id : PyVal) :
    List Dict → List Dict × Option PyError
  | [] => ([], some (.valueError "No item found with id"))
  | item :: rest =>
    if (alGet item "id").getD (.leaf .lNone) = id then
      match alGet item "metadata" with
      | some (.dict md) =>
        if alHas md key then
          if alHas item key then (alDel item key :: rest, none)
          else (item :: rest, some (.keyError key))
        else (item :: rest, some (.keyError key))
      | some _ => (item :: rest, some (.keyError key))
      | none => (item :: rest, some (.keyError "metadata"))
    else
      let r := removeMetaScan key id rest
      (item :: r.1, r.2)

/-- `Conversation.remove_metadata`: protected keys are rejected first;
the conversation branch deletes from the conversation metadata and then
re-saves the last message (`conversation_history[-1]`, an `IndexError`
on an empty history); the message branch runs the history scan.  The
state is returned alongside the error because the source mutates before
some of its raises. -/
def remove_metadata (c : ConvState) (conversation : Bool) (key : String)
    (id : PyVal) : ConvState × Option PyError :=
  if key ∈ protectedKeys then
    (c, some (.valueError "Cannot remove protected key"))
  else if conversation then
    if alHas c.conversation_metadata key then
      let c2 := { c with conversation_metadata := alDel c.conversation_metadata key }
      if c2.conversation_history.isEmpty then
        (c2, some (.indexError "list index out of range"))
      else (c2, none)
    else (c, some (.keyError key))
  else
    let r := removeMetaScan key id c.conversation_history
    ({ c with conversation_history := r.1 }, r.2)

/-- The state of an `InteractionManager` after construction: the three
bound handlers (their observable behaviour in `world`), the settings,
and the optional active conversation. -/
structure IMState where
  world : World
  settings : Settings
  conversation : Option ConvState

/-- `InteractionManager.start_conversation`: requires all three
handlers connected (a `RuntimeError` otherwise — the precondition
failure), then replaces any previous conversation with a fresh one.
No handler call is made either way, hence the empty trace. -/
def start_conversation (st : IMState) (metadata : LeafDict) :
    Except PyError IMState × Trace :=
  if st.world.llmConnected && st.world.persistentConnected && st.world.vectorConnected then
    (.ok { st with conversation := some (ConvState.fresh metadata) }, Trace.empty)
  else
    (.error (.runtimeError "Conversations can only be started when all 3 handlers are instantiated and connected"),
     Trace.empty)

/-- `InteractionManager.send_prompt`: requires an active conversation
(a `RuntimeError` otherwise, before any handler call); prepends the
system prompt unless it is the `"-1"` sentinel; delegates to
`Conversation.send_prompt`. -/
def im_send_prompt (st : IMState) (manual : String) (prompt : String) :
    Except PyError (Dict × IMState) × Trace :=
  match st.conversation with
  | none =>
    (.error (.runtimeError "No conversation initialized yet. Use start_conversation() first."),
     Trace.empty)
  | some c =>
    let full_prompt :=
      if st.settings.default_system_prompt ≠ "-1" then
        "SYSTEM PROMPT: " ++ st.settings.default_system_prompt ++ " PROMPT: " ++ prompt
      else prompt
    match sendPromptConv st.world st.settings manual c full_prompt with
    | (.error e, tr) => (.error e, tr)
    | (.ok r, tr) => (.ok (r.1, { st with conversation := some r.2 }), tr)

/-- The store-handler construction of `initialize` in
`api/interaction_manager_factory.py`, lines 80-87, after both keys have
been resolved (explicitly or from persisted defaults).  Object identity
is modelled by an allocation counter: `_load_handler` hands out the
next fresh instance number.  Returns the persistent instance, the
vector instance, and the next fresh number. -/
def factoryResolveStores (persistentKey vectorKey : String) (fresh : Nat) :
    (Nat × Nat) × Nat :=
  let p := fresh
  if persistentKey = vectorKey then ((p, p), fresh + 1)
  else ((p, fresh + 1), fresh + 2)

/-- The store-handler resolution inside `InteractionManager.__init__`
(lines 98-159) when neither a persistent nor a vector handler is handed
over: each role independently reads its persisted default name, checks
its configuration, and calls `_dynamic_handler_factory` — allocating a
fresh instance for each role, with no sharing check.  Same allocation
model as `factoryResolveStores`. -/
def imInitResolveStores (s : Settings) (fresh : Nat) :
    Except PyError ((Nat × Nat) × Nat) :=
  match alGet s.default_handlers "persistent" with
  | none => .error (.valueError "No Persistent Handler handed over on init and no default Persistent connection saved yet")
  | some pname =>
    if pname = "" then
      .error (.valueError "No Persistent Handler handed over on init and no default Persistent connection saved yet")
    else
      match alGet s.handlers pname with
      | none => .error (.valueError "No configuration found in settings.handlers")
      | some _ =>
        match alGet s.default_handlers "vector" with
        | none => .error (.valueError "No Vector Handler handed over on init and no default Vector connection saved yet")
        | some vname =>
          if vname = "" then
            .error (.valueError "No Vector Handler handed over on init and no default Vector connection saved yet")
          else
            match alGet s.handlers vname with
            | none => .error (.valueError "No configuration found in settings.handlers")
            | some _ => .ok ((fresh, fresh + 1), fresh + 2)

/-- The names of the `Settings` dataclass fields
(`utils/settings.py`). -/
def settingsFieldNames : List String :=
  ["handlers", "default_handlers", "use_rag_data", "on_the_fly_data", "default_rag_data",
   "default_system_prompt", "wait_for_manual_data", "default_export_path",
   "send_conversation_history"]

/-- The field-derived attributes present on the `Settings` *class*
object, which is what `hasattr(Settings, key)` inspects in
`read_setting`/`write_setting`: dataclass fields with a plain default
keep a class attribute, fields declared with `default_factory`
(`handlers`, `default_handlers`, `on_the_fly_data`,
`default_rag_data`) have their class attribute deleted by dataclass
processing. -/
def settingsClassAttrNames : List String :=
  ["use_rag_data", "default_system_prompt", "wait_for_manual_data", "default_export_path",
   "send_conversation_history"]

/-- The instance attributes of an `InteractionManager` object, which is
what `getattr(self, key)` reads in `read_setting` (the source reads
from `self`, not from `self.settings`). -/
def imInstanceAttrNames : List String :=
  ["llm_handler", "persistent_handler", "vector_handler", "settings", "conversation"]

/-- `InteractionManager.read_setting`: `hasattr(Settings, key)` gate
(otherwise `KeyError`), then `getattr(self, key)` — an
`AttributeError` whenever `key` is not an attribute of the manager
object itself.  The successful value is irrelevant to what the claims
test, so only the error outcome is modelled. -/
def read_setting (key : String) : Option PyError :=
  if key ∈ settingsClassAttrNames then
    if key ∈ imInstanceAttrNames then none
    else some (.attributeError key)
  else some (.keyError key)

/-- The validation gate of `InteractionManager.write_setting`: the same
`hasattr(Settings, key)` check; a passing key is written to
`self.settings` and persisted. -/
def write_setting_check (key : String) : Option PyError :=
  if key ∈ settingsClassAttrNames then none else some (.keyError key)

/-- The `"prompt"` field of a turn record. -/
def promptOf (t : Dict) : String := alGetStr t "prompt"

/-- The conversation state after one `send_prompt` call (unchanged on
an exception, since the append happens after the raise sites). -/
def stateAfterSend (w : World) (s : Settings) (m : String) (c : ConvState)
    (p : String) : ConvState :=
  match (sendPromptConv w s m c p).1 with
  | .ok r => r.2
  | .error _ => c

/-- The metadata field of the turn record returned by one `send_prompt`
call, when the call succeeds. -/
def sentMetadata (w : World) (s : Settings) (m : String) (c : ConvState)
    (p : String) : Option PyVal :=
  match (sendPromptConv w s m c p).1 with
  | .ok r => alGet r.1 "metadata"
  | .error _ => none

/-- N sequential `send_prompt` calls with the given prompts. -/
def sendMany (w : World) (s : Settings) (m : String) :
    ConvState → List String → ConvState
  | c, [] => c
  | c, p :: ps => sendMany w s m (stateAfterSend w s m c p) ps

/-- A stub world: everything connected, the LLM answers every prompt
with the fixed mapping `{"response": "ok"}`, nearest search finds
nothing. -/
def wTest : World where
  llmConnected := true
  persistentConnected := true
  vectorConnected := true
  llmRespond := fun _ _ => [("response", .lStr "ok")]
  nearestSearch := fun _ _ _ => []

/-- A stub world with the LLM handler reporting disconnected. -/
def wDisc : World := { wTest with llmConnected := false }

/-- A stub world whose LLM response carries an extra field next to the
response text. -/
def wC5 : World :=
  { wTest with llmRespond := fun _ _ => [("response", .lStr "hi"), ("model", .lStr "m")] }

/-- Settings selecting VOLATILE RAG with the dataclass-default empty
payload. -/
def sC1 : Settings := { Settings.default with use_rag_data := .VOLATILE }

/-- Settings selecting VOLATILE RAG with a two-entry mapping payload. -/
def sRag : Settings :=
  { Settings.default with
      use_rag_data := .VOLATILE
      on_the_fly_data := .rdict [("a", "x"), ("b", "y")] }

/-- Persisted settings whose Record-Store and Vector-Store default
identifiers are both `"postgres"`, with a configuration entry for it. -/
def sC3 : Settings :=
  { Settings.default with
      default_handlers := [("llm", "huggingface"), ("persistent", "postgres"),
                           ("vector", "postgres")]
      handlers := [("postgres", [("host", .lStr "localhost")])] }

/-- An orchestrator state with every handler connected and no active
conversation. -/
def stTest : IMState where
  world := wTest
  settings := Settings.default
  conversation := none

/-- An orchestrator state with the LLM disconnected and no active
conversation. -/
def stDisc : IMState := { stTest with world := wDisc }

/-- An orchestrator state with an active fresh conversation and a
configured system-prompt prefix. -/
def stSys : IMState :=
  { stTest with
      settings := { Settings.default with default_system_prompt := "be brief" }
      conversation := some (ConvState.fresh []) }

/-- An orchestrator state with an active fresh conversation and the
system-prompt prefix left at its `"-1"` sentinel. -/
def stNoSys : IMState := { stTest with conversation := some (ConvState.fresh []) }

/-- A conversation with two conversation-metadata entries, one of them
a protected key. -/
def cMeta : ConvState :=
  ConvState.fresh [("prompt", .lStr "x"), ("user", .lStr "alice")]

/-- The conversation state after one successful `send_prompt` against
the stub world: exactly one turn, identified by `"msg_0"` under the
`"message_id"` key. -/
def cOneTurn : ConvState :=
  stateAfterSend wTest Settings.default "" (ConvState.fresh []) "hi"


/-- Helper: `Conversation.send_prompt` calls the LLM handler exactly
once, with the original prompt and the assembled context option, on
the success path and on the missing-response error path alike. -/
theorem sendPromptConv_llmCalls (w : World) (s : Settings) (m : String) (c : ConvState)
    (p : String) :
    (sendPromptConv w s m c p).2.llmCalls = [(p, ctxOpt w s c p)] := by
  unfold sendPromptConv
  cases h : alHas (w.llmRespond p (ctxOpt w s c p)) "response" <;> simp [h]

/-- Helper: with an active conversation, the LLM call made by
`InteractionManager.send_prompt` carries the prefix-transformed
prompt. -/
theorem im_send_prompt_llmCalls (st : IMState) (m p : String) (c : ConvState)
    (h : st.conversation = some c) :
    (im_send_prompt st m p).2.llmCalls =
      [(if st.settings.default_system_prompt ≠ "-1" then
          "SYSTEM PROMPT: " ++ st.settings.default_system_prompt ++ " PROMPT: " ++ p
        else p,
        ctxOpt st.world st.settings c
          (if st.settings.default_system_prompt ≠ "-1" then
            "SYSTEM PROMPT: " ++ st.settings.default_system_prompt ++ " PROMPT: " ++ p
          else p))] := by
  unfold im_send_prompt
  rw [h]
  simp only []
  rcases hsp : sendPromptConv st.world st.settings m c
      (if st.settings.default_system_prompt ≠ "-1" then
        "SYSTEM PROMPT: " ++ st.settings.default_system_prompt ++ " PROMPT: " ++ p
      else p) with ⟨res, tr⟩
  have htr := sendPromptConv_llmCalls st.world st.settings m c
      (if st.settings.default_system_prompt ≠ "-1" then
        "SYSTEM PROMPT: " ++ st.settings.default_system_prompt ++ " PROMPT: " ++ p
      else p)
  rw [hsp] at htr
  cases res <;> simpa using htr

/-- Claim C1, counterexample: with RAG mode VOLATILE (not NONE),
prior-turn inclusion disabled, and the dataclass-default empty mapping
payload, `send_prompt` calls the LLM with the context argument omitted
— not with a non-empty context list as the claim states. -/
theorem c1_nonempty_context_counterexample :
    sC1.use_rag_data ≠ RAGMode.NONE ∧
    sC1.send_conversation_history = false ∧
    (sendPromptConv wTest sC1 "" (ConvState.fresh []) "hi").2.llmCalls = [("hi", none)] := by
  refine ⟨by decide, rfl, by decide⟩

/-- Claim C1, amended: with prior-turn inclusion disabled, the LLM is
called exactly once with the assembled context list when that list is
non-empty, and with the context argument omitted when it is empty; the
assembled list is the mode-selected payload (empty for NONE, the
normalized on-the-fly payload for VOLATILE, the normalized persisted
payload for PERSISTENT, the nearest-neighbor hits for DYNAMIC), and
normalization maps a mapping to the ordered list of its values, passes
a list through unchanged, and maps anything else to the empty list. -/
theorem c1_context_argument (w : World) (s : Settings) (c : ConvState) (m p : String)
    (h : s.send_conversation_history = false) :
    ((sendPromptConv w s m c p).2.llmCalls =
      [(p, if (buildRagList w s c p).isEmpty then none else some (buildRagList w s c p))]) ∧
    (s.use_rag_data = .NONE → buildRagList w s c p = []) ∧
    (s.use_rag_data = .VOLATILE →
      buildRagList w s c p = normalizeRagData s.on_the_fly_data) ∧
    (s.use_rag_data = .PERSISTENT →
      buildRagList w s c p = normalizeRagData s.default_rag_data) ∧
    (s.use_rag_data = .DYNAMIC →
      buildRagList w s c p = w.nearestSearch p 10 "lims_embeddings") ∧
    (∀ kvs, normalizeRagData (.rdict kvs) = kvs.map (fun kv => kv.2)) ∧
    (∀ l, normalizeRagData (.rlist l) = l) ∧
    normalizeRagData .rother = [] := by
  refine ⟨?_, ?_, ?_, ?_, ?_, fun kvs => rfl, fun l => rfl, rfl⟩
  · rw [sendPromptConv_llmCalls]
    rfl
  all_goals (intro hm; simp [buildRagList, h, hm])

/-- Witness for `c1_context_argument` at a VOLATILE two-entry mapping
payload: the LLM receives the non-empty value list. -/
theorem c1_context_argument_witness :
    (sRag.send_conversation_history = false ∧ sRag.use_rag_data = .VOLATILE) ∧
    (sendPromptConv wTest sRag "" (ConvState.fresh []) "hi").2.llmCalls =
      [("hi", some ["x", "y"])] ∧
    buildRagList wTest sRag (ConvState.fresh []) "hi" = ["x", "y"] := by
  have h := c1_context_argument wTest sRag (ConvState.fresh []) "" "hi" rfl
  refine ⟨⟨rfl, rfl⟩, ?_, ?_⟩
  · rw [h.1]
    decide
  · exact h.2.2.1 rfl |>.trans (by decide)

/-- Claim C2: `start_conversation` fails with the precondition
`RuntimeError` whenever any of the three handlers does not report
connected, and `send_prompt` with no active conversation fails with
the precondition `RuntimeError`; in both failure cases no LLM call is
made. -/
theorem c2_precondition_errors (st : IMState) (metadata : LeafDict) (m p : String) :
    (¬(st.world.llmConnected ∧ st.world.persistentConnected ∧ st.world.vectorConnected) →
      (start_conversation st metadata).1 =
        .error (.runtimeError "Conversations can only be started when all 3 handlers are instantiated and connected") ∧
      (start_conversation st metadata).2.llmCalls = []) ∧
    (st.conversation = none →
      (im_send_prompt st m p).1 =
        .error (.runtimeError "No conversation initialized yet. Use start_conversation() first.") ∧
      (im_send_prompt st m p).2.llmCalls = []) := by
  constructor
  · intro h
    have hb : (st.world.llmConnected && st.world.persistentConnected && st.world.vectorConnected) = false := by
      rcases Bool.eq_false_or_eq_true st.world.llmConnected with h1 | h1 <;>
        rcases Bool.eq_false_or_eq_true st.world.persistentConnected with h2 | h2 <;>
        rcases Bool.eq_false_or_eq_true st.world.vectorConnected with h3 | h3 <;>
        simp [h1, h2, h3] at h ⊢
    unfold start_conversation
    rw [hb]
    exact ⟨rfl, rfl⟩
  · intro h
    unfold im_send_prompt
    rw [h]
    exact ⟨rfl, rfl⟩

/-- Witness for `c2_precondition_errors` at a state with the LLM
handler disconnected and no active conversation. -/
theorem c2_precondition_errors_witness :
    (¬(wDisc.llmConnected ∧ wDisc.persistentConnected ∧ wDisc.vectorConnected) ∧
      stDisc.conversation = none) ∧
    (start_conversation stDisc []).1 =
      .error (.runtimeError "Conversations can only be started when all 3 handlers are instantiated and connected") ∧
    (start_conversation stDisc []).2.llmCalls = [] ∧
    (im_send_prompt stDisc "" "hi").1 =
      .error (.runtimeError "No conversation initialized yet. Use start_conversation() first.") ∧
    (im_send_prompt stDisc "" "hi").2.llmCalls = [] := by
  refine ⟨⟨by decide, rfl⟩, ?_, ?_, ?_, ?_⟩
  · exact ((c2_precondition_errors stDisc [] "" "hi").1 (by decide)).1
  · exact ((c2_precondition_errors stDisc [] "" "hi").1 (by decide)).2
  · exact ((c2_precondition_errors stDisc [] "" "hi").2 rfl).1
  · exact ((c2_precondition_errors stDisc [] "" "hi").2 rfl).2

/-- Claim C3, counterexample: with persisted defaults naming
`"postgres"` for both the Record-Store and Vector-Store roles, the
resolution inside `InteractionManager.__init__` (no handlers handed
over) constructs two distinct implementation instances (allocations 0
and 1), not one shared instance as the claim states for every
resolution path. -/
theorem c3_shared_instance_counterexample :
    alGet sC3.default_handlers "persistent" = some "postgres" ∧
    alGet sC3.default_handlers "vector" = some "postgres" ∧
    imInitResolveStores sC3 0 = .ok ((0, 1), 2) ∧
    (0 : Nat) ≠ 1 := by
  refine ⟨by decide, by decide, by rfl, by decide⟩

/-- Claim C3, amended: when the two store roles are resolved through
the factory `initialize` path (whether the identifiers were supplied
explicitly or read from persisted defaults), equal identifiers yield a
single shared instance with exactly one allocation; the resolution
inside the orchestrator constructor, by contrast, always constructs a
separate instance per role. -/
theorem c3_factory_shared_instance (pk vk : String) (fresh : Nat) (h : pk = vk) :
    factoryResolveStores pk vk fresh = ((fresh, fresh), fresh + 1) := by
  unfold factoryResolveStores
  simp [h]

/-- Witness for `c3_factory_shared_instance` at identifier
`"postgres"` for both roles. -/
theorem c3_factory_shared_instance_witness :
    ("postgres" : String) = "postgres" ∧
    factoryResolveStores "postgres" "postgres" 0 = ((0, 0), 1) :=
  ⟨rfl, c3_factory_shared_instance "postgres" "postgres" 0 rfl⟩

/-- Claim C4: with an active conversation, the prompt passed downstream
(observed as the prompt of the single LLM call the turn sequence makes)
is `"SYSTEM PROMPT: {prefix} PROMPT: {p}"` when the configured prefix
differs from the `"-1"` sentinel, and `p` unchanged when the prefix
equals the sentinel. -/
theorem c4_system_prompt_wrapping (st : IMState) (c : ConvState) (m p : String)
    (h : st.conversation = some c) :
    (st.settings.default_system_prompt ≠ "-1" →
      (im_send_prompt st m p).2.llmCalls.map Prod.fst =
        ["SYSTEM PROMPT: " ++ st.settings.default_system_prompt ++ " PROMPT: " ++ p]) ∧
    (st.settings.default_system_prompt = "-1" →
      (im_send_prompt st m p).2.llmCalls.map Prod.fst = [p]) := by
  have hc := im_send_prompt_llmCalls st m p c h
  constructor
  · intro hne
    rw [hc]
    simp [hne]
  · intro heq
    rw [hc]
    simp [heq]

/-- Witness for `c4_system_prompt_wrapping`: prefix `"be brief"` yields
the wrapped prompt, the `"-1"` sentinel leaves the prompt unchanged. -/
theorem c4_system_prompt_wrapping_witness :
    (stSys.conversation = some (ConvState.fresh []) ∧
      stSys.settings.default_system_prompt ≠ "-1" ∧
      stNoSys.settings.default_system_prompt = "-1") ∧
    (im_send_prompt stSys "" "hi").2.llmCalls.map Prod.fst =
      ["SYSTEM PROMPT: be brief PROMPT: hi"] ∧
    (im_send_prompt stNoSys "" "hi").2.llmCalls.map Prod.fst = ["hi"] := by
  refine ⟨⟨rfl, by decide, rfl⟩, ?_, ?_⟩
  · exact (c4_system_prompt_wrapping stSys (ConvState.fresh []) "" "hi" rfl).1 (by decide)
  · exact (c4_system_prompt_wrapping stNoSys (ConvState.fresh []) "" "hi" rfl).2 rfl

/-- Claim C5, counterexample: for the response mapping
`{"response": "hi", "model": "m"}`, the turn metadata built by
`send_prompt` is the whole mapping — the response text stays in the
metadata under the `"response"` key, because the source filters the
literal keys `"content"`/`"prompt"` rather than the response's
canonical content key; the claim's predicted restriction
`{"model": "m"}` does not match. -/
theorem c5_metadata_counterexample :
    alHas (wC5.llmRespond "q" none) "response" = true ∧
    sentMetadata wC5 Settings.default "" (ConvState.fresh []) "q" =
      some (.dict [("response", .lStr "hi"), ("model", .lStr "m")]) ∧
    sentMetadata wC5 Settings.default "" (ConvState.fresh []) "q" ≠
      some (.dict [("model", .lStr "m")]) := by
  refine ⟨by decide, by decide, by decide⟩

/-- Claim C5, amended: for every response mapping containing a
`"response"` field, the turn metadata equals the restriction of the
response mapping to every key other than the literal keys `"content"`
and `"prompt"`; the response text itself, stored under the
`"response"` key, therefore remains inside the metadata mapping. -/
theorem c5_metadata_filter (w : World) (s : Settings) (m : String) (c : ConvState)
    (p : String) (h : alHas (w.llmRespond p (ctxOpt w s c p)) "response" = true) :
    sentMetadata w s m c p =
      some (.dict ((w.llmRespond p (ctxOpt w s c p)).filter
        (fun kv => kv.1 != "content" && kv.1 != "prompt"))) := by
  unfold sentMetadata sendPromptConv
  simp only [h, if_true]
  cases hm : s.use_rag_data <;> simp [mkRespObj, alGet, hm, List.find?]

/-- Witness for `c5_metadata_filter` at the two-field stub response. -/
theorem c5_metadata_filter_witness :
    alHas (wC5.llmRespond "q" (ctxOpt wC5 Settings.default (ConvState.fresh []) "q"))
      "response" = true ∧
    sentMetadata wC5 Settings.default "" (ConvState.fresh []) "q" =
      some (.dict ((wC5.llmRespond "q"
        (ctxOpt wC5 Settings.default (ConvState.fresh []) "q")).filter
          (fun kv => kv.1 != "content" && kv.1 != "prompt"))) :=
  ⟨by decide, c5_metadata_filter wC5 Settings.default "" (ConvState.fresh []) "q" (by decide)⟩

/-- Claim C6, code-bug evidence: the single turn produced by
`send_prompt` stores its identifier under `"message_id"` and has no
`"id"` key, so `get_metadata` by that identifier raises
`KeyError("id")` instead of returning the turn metadata;
`remove_metadata` by that identifier never matches (`item.get("id")`
is always `None`) and reports no-item-found; and even when the `None`
id matches, removing a key that is present in the metadata raises a
`KeyError` because the source deletes from the turn record
(`del item[key]`) instead of from its metadata mapping. -/
theorem c6_metadata_lookup_bug :
    cOneTurn.conversation_history.length = 1 ∧
    alGet (cOneTurn.conversation_history.headD []) "message_id" =
      some (.leaf (.lStr "msg_0")) ∧
    alHas (cOneTurn.conversation_history.headD []) "id" = false ∧
    get_metadata cOneTurn false (.leaf (.lStr "msg_0")) = .error (.keyError "id") ∧
    (remove_metadata cOneTurn false "response" (.leaf (.lStr "msg_0"))).2 =
      some (.valueError "No item found with id") ∧
    (remove_metadata cOneTurn false "response" (.leaf .lNone)).2 =
      some (.keyError "response") := by
  refine ⟨by decide, by decide, by decide, by rfl, by decide, by decide⟩

/-- Claim C7, code-bug evidence: `read_setting` on the known Settings
field `use_rag_data` passes validation but raises `AttributeError`
(the source reads `getattr(self, key)` from the manager instead of
`self.settings`); the known fields declared with `default_factory`
(such as `handlers`) are rejected with `KeyError` by the
`hasattr(Settings, key)` gate in both `read_setting` and
`write_setting`; no known Settings field can be read successfully;
fields with plain defaults (such as `wait_for_manual_data`) do pass
the write gate. -/
theorem c7_read_setting_bug :
    "use_rag_data" ∈ settingsFieldNames ∧
    read_setting "use_rag_data" = some (.attributeError "use_rag_data") ∧
    "handlers" ∈ settingsFieldNames ∧
    read_setting "handlers" = some (.keyError "handlers") ∧
    write_setting_check "handlers" = some (.keyError "handlers") ∧
    settingsFieldNames.all (fun key => (read_setting key).isSome) = true ∧
    write_setting_check "wait_for_manual_data" = none := by
  refine ⟨by decide, by decide, by decide, by decide, by decide, by decide, by decide⟩

/-- Claim C8: removing any of the protected keys `"prompt"`,
`"content"`, `"data"`, `"id"` — from the sequence-level or the
turn-level metadata, present or not — always fails with the
validation `ValueError` and leaves the conversation state unchanged. -/
theorem c8_protected_keys (c : ConvState) (conversation : Bool) (key : String)
    (id : PyVal) (h : key ∈ protectedKeys) :
    remove_metadata c conversation key id =
      (c, some (.valueError "Cannot remove protected key")) := by
  unfold remove_metadata
  simp [h]

/-- Witness for `c8_protected_keys` at the present key `"prompt"` and
the absent key `"id"`. -/
theorem c8_protected_keys_witness :
    ("prompt" ∈ protectedKeys ∧ "id" ∈ protectedKeys) ∧
    remove_metadata cMeta true "prompt" (.leaf .lNone) =
      (cMeta, some (.valueError "Cannot remove protected key")) ∧
    remove_metadata cMeta false "id" (.leaf (.lStr "msg_0")) =
      (cMeta, some (.valueError "Cannot remove protected key")) :=
  ⟨⟨by decide, by decide⟩,
   c8_protected_keys cMeta true "prompt" (.leaf .lNone) (by decide),
   c8_protected_keys cMeta false "id" (.leaf (.lStr "msg_0")) (by decide)⟩

/-- Helper: the `"prompt"` field of a freshly built turn record is the
prompt it was built from, in every RAG mode. -/
theorem promptOf_mkRespObj (s : Settings) (mid p cm : String) (resp : LeafDict) :
    promptOf (mkRespObj s mid p cm resp) = p := by
  cases hm : s.use_rag_data <;> (simp only [mkRespObj, hm]; rfl)

/-- Helper: a successful `send_prompt` appends exactly the new turn
record at the end of the history. -/
theorem stateAfterSend_history (w : World) (s : Settings) (m : String) (c : ConvState)
    (p : String) (h : alHas (w.llmRespond p (ctxOpt w s c p)) "response" = true) :
    (stateAfterSend w s m c p).conversation_history =
      c.conversation_history ++
        [mkRespObj s ("msg_" ++ toString c.nextId) p
          (if s.wait_for_manual_data then m.trim else "")
          (w.llmRespond p (ctxOpt w s c p))] := by
  unfold stateAfterSend sendPromptConv
  simp only [h, if_true]

/-- Helper: over any prompt list, sequential sends extend the history
prompt-projection by exactly those prompts, in order. -/
theorem sendMany_prompts (w : World) (s : Settings) (m : String)
    (hresp : ∀ p ctx, alHas (w.llmRespond p ctx) "response" = true) :
    ∀ (ps : List String) (c : ConvState),
      (sendMany w s m c ps).conversation_history.map promptOf =
        c.conversation_history.map promptOf ++ ps := by
  intro ps
  induction ps with
  | nil => intro c; simp [sendMany]
  | cons p ps ih =>
    intro c
    simp only [sendMany]
    rw [ih]
    rw [stateAfterSend_history w s m c p (hresp p _)]
    simp [promptOf_mkRespObj]

/-- Claim C9: after N sequential successful `send_prompt` calls with
prompts `p1..pN` on one fresh turn sequence, the history has length
exactly N and the i-th entry's prompt equals `p_{i+1}` (stated as: the
prompt projection of the history equals the prompt list); moreover
each successful `send_prompt` appends exactly one turn at the end of
the history, removing and reordering nothing. -/
theorem c9_history_ordering (w : World) (s : Settings) (m : String) (ps : List String)
    (hresp : ∀ p ctx, alHas (w.llmRespond p ctx) "response" = true) :
    (sendMany w s m (ConvState.fresh []) ps).conversation_history.length = ps.length ∧
    (sendMany w s m (ConvState.fresh []) ps).conversation_history.map promptOf = ps ∧
    (∀ (c : ConvState) (p : String) (obj : Dict) (c2 : ConvState),
      (sendPromptConv w s m c p).1 = .ok (obj, c2) →
      c2.conversation_history = c.conversation_history ++ [obj]) := by
  have hmap := sendMany_prompts w s m hresp ps (ConvState.fresh [])
  refine ⟨?_, ?_, ?_⟩
  · have hlen := congrArg List.length hmap
    simpa [ConvState.fresh] using hlen
  · simpa using hmap
  · intro c p obj c2 h
    unfold sendPromptConv at h
    by_cases hr : alHas (w.llmRespond p (ctxOpt w s c p)) "response" = true
    · simp only [hr, if_true] at h
      cases h
      rfl
    · simp only [hr, if_false, Bool.false_eq_true, reduceIte] at h
      exact Except.noConfusion h

/-- Witness for `c9_history_ordering` at three prompts against the
stub world. -/
theorem c9_history_ordering_witness :
    (∀ p ctx, alHas (wTest.llmRespond p ctx) "response" = true) ∧
    (sendMany wTest Settings.default "" (ConvState.fresh [])
        ["a", "b", "c"]).conversation_history.map promptOf = ["a", "b", "c"] ∧
    (sendMany wTest Settings.default "" (ConvState.fresh [])
        ["a", "b", "c"]).conversation_history.length = 3 := by
  have h := c9_history_ordering wTest Settings.default "" ["a", "b", "c"] (fun p ctx => rfl)
  exact ⟨fun p ctx => rfl, h.2.1, h.1⟩

/-- Claim C10: `get_last_response` returns the empty string on an
empty history (no exception is modelled because none is raised), and
the `"content"` field of the most recent turn otherwise. -/
theorem c10_get_last_response (c : ConvState) :
    (c.conversation_history = [] → get_last_response c = "") ∧
    (∀ t, c.conversation_history.getLast? = some t →
      get_last_response c = alGetStr t "content") := by
  constructor
  · intro h
    unfold get_last_response
    rw [h]
    rfl
  · intro t h
    unfold get_last_response
    rw [h]

/-- Witness for `c10_get_last_response` at the empty history and at a
one-turn history. -/
theorem c10_get_last_response_witness :
    ((ConvState.fresh []).conversation_history = [] ∧
      get_last_response (ConvState.fresh []) = "") ∧
    (cOneTurn.conversation_history.getLast? =
        some (mkRespObj Settings.default "msg_0" "hi" "" [("response", .lStr "ok")]) ∧
      get_last_response cOneTurn = "ok") := by
  refine ⟨⟨rfl, (c10_get_last_response (ConvState.fresh [])).1 rfl⟩, ⟨by decide, ?_⟩⟩
  have := (c10_get_last_response cOneTurn).2
      (mkRespObj Settings.default "msg_0" "hi" "" [("response", .lStr "ok")]) (by decide)
  simpa using this
